import Mathlib

/-!
Shallow embedding of the multi-agent task-dispatch system
(src/agents/agent.py, src/coordinator.py, src/communication/broker.py,
src/communication/message_types.py).

Modelling conventions:
* Python `float` timestamps and bid values are modelled as `ℚ`.
* Python `dict` is modelled as an insertion-ordered association list
  (`List (String × α)`): `dictInsert` replaces an existing binding in
  place (Python dicts keep the original key position on overwrite) and
  appends otherwise; `dictErase` deletes a binding.
* Python `set` is modelled as a duplicate-free `List String` with
  `setAdd`/`setDiscard`.
* `message_data.get('msg_id')` is modelled as `Option String`; Python
  truthiness (`if msg_id:`) treats `none` and `some ""` as false.
* Threading, locks and wall-clock sleeps are elided: each handler is a
  pure state transformer returning the successor state together with the
  list of messages it publishes / threads it spawns, with the current
  wall-clock time and the random draw passed in as parameters.
-/

namespace MultiAgent

/-! ### Dict and set helpers (Python `dict` / `set` on string keys) -/

def dictLookup {α : Type} : List (String × α) → String → Option α
  | [], _ => none
  | (k', v) :: rest, k => if k' = k then some v else dictLookup rest k

def dictInsert {α : Type} : List (String × α) → String → α → List (String × α)
  | [], k, v => [(k, v)]
  | (k', v') :: rest, k, v =>
      if k' = k then (k, v) :: rest else (k', v') :: dictInsert rest k v

def dictErase {α : Type} : List (String × α) → String → List (String × α)
  | [], _ => []
  | (k', v') :: rest, k => if k' = k then rest else (k', v') :: dictErase rest k

def setAdd (l : List String) (x : String) : List String :=
  if x ∈ l then l else l ++ [x]

def setDiscard (l : List String) (x : String) : List String :=
  l.filter (fun y => y ≠ x)

/-- Python truthiness test `if msg_id and msg_id in processed:` for an
optional message id. -/
def msgSeen (o : Option String) (processed : List String) : Bool :=
  match o with
  | none => false
  | some mid => mid != "" && decide (mid ∈ processed)

/-- Python `if msg_id: processed_message_ids.add(msg_id)`. -/
def addIfTruthy (o : Option String) (processed : List String) : List String :=
  match o with
  | none => processed
  | some mid => if mid = "" then processed else setAdd processed mid

/-! ### Data model (src/communication/message_types.py) -/

structure Task where
  task_id : String
  priority : Int
  estimated_time : ℚ
  description : String
  created_at : ℚ
deriving DecidableEq

structure BidData where
  agent_id : String
  task_id : String
  bid_value : ℚ
  current_load : Int
  estimated_completion_time : ℚ
deriving DecidableEq

structure HeartbeatData where
  agent_id : String
  timestamp : ℚ
  status : String
  current_load : Int
  max_load : Int
deriving DecidableEq

/-! ### Agent state (src/agents/agent.py, `Agent.__init__`) -/

structure AgentState where
  agent_id : String
  current_load : Int
  max_load : Int
  assigned_tasks : List Task
  completed_tasks : List Task
  running_tasks : List String
  allocated_task_ids : List String
  processed_message_ids : List String
  bid_task_ids : List String
  is_crashed : Bool
  crash_time : Option ℚ
  last_heartbeat : ℚ
  auto_recover_enabled : Bool
  auto_recover_delay : ℚ
deriving DecidableEq

/-- Embeds `Agent.__init__`: fresh agent state (load 0, max_load 5, empty sets). -/
def agentInit (id : String) (now : ℚ) : AgentState :=
  { agent_id := id
    current_load := 0
    max_load := 5
    assigned_tasks := []
    completed_tasks := []
    running_tasks := []
    allocated_task_ids := []
    processed_message_ids := []
    bid_task_ids := []
    is_crashed := false
    crash_time := none
    last_heartbeat := now
    auto_recover_enabled := true
    auto_recover_delay := 10 }

/-- Everything an agent handler can publish or spawn. -/
inductive AgentOut where
  | ack (ack_for : Option String)
  | bid (b : BidData)
  | heartbeat (h : HeartbeatData)
  | agentEvent (event_type : String) (task_id : Option String)
  | spawnExec (t : Task)
deriving DecidableEq

/-- Wire form of a `TASK_BROADCAST` message as seen by the agent handler:
`msg_id`/`requires_ack` from the envelope and `payload['task']`. -/
structure TaskBroadcastMsg where
  msg_id : Option String
  msg_type : String
  requires_ack : Bool
  task : Task
deriving DecidableEq

/-- Wire form of a `TASK_ALLOCATION` message: envelope plus
`payload['task']` and `payload['agent_id']`. -/
structure TaskAllocationMsg where
  msg_id : Option String
  msg_type : String
  requires_ack : Bool
  task : Task
  agent_id : String
deriving DecidableEq

/-- Embeds `Agent.send_bid` (lines 110-133): `bid_value = current_load * 10 +
random.uniform(0, 5)`; the random draw is the `rand` parameter. -/
def mkBid (rand : ℚ) (s : AgentState) (t : Task) : BidData :=
  { agent_id := s.agent_id
    task_id := t.task_id
    bid_value := (s.current_load : ℚ) * 10 + rand
    current_load := s.current_load
    estimated_completion_time := t.estimated_time }

/-- Embeds `Agent.handle_task_broadcast` (agent.py lines 66-108).  The crashed and
already-interacted branches ACK via `message_data['msg_id']`, which raises
`KeyError` when the key is absent; the broker catches callback exceptions,
so that path is modelled as aborting with the state mutated so far and no
publication. -/
def handle_task_broadcast (rand : ℚ) (s : AgentState) (m : TaskBroadcastMsg) :
    AgentState × List AgentOut :=
  if m.msg_type ≠ "task_broadcast" then (s, [])
  else if msgSeen m.msg_id s.processed_message_ids then (s, [])
  else
    let s1 : AgentState :=
      { s with processed_message_ids := addIfTruthy m.msg_id s.processed_message_ids }
    if s1.is_crashed then
      if m.requires_ack then
        match m.msg_id with
        | some mid => (s1, [AgentOut.ack (some mid)])
        | none => (s1, [])
      else (s1, [])
    else
      let tid := m.task.task_id
      if tid ∈ s1.bid_task_ids ∨ tid ∈ s1.allocated_task_ids then
        if m.requires_ack then
          match m.msg_id with
          | some mid => (s1, [AgentOut.ack (some mid)])
          | none => (s1, [])
        else (s1, [])
      else
        let s2 : AgentState := { s1 with bid_task_ids := setAdd s1.bid_task_ids tid }
        if m.requires_ack then
          match m.msg_id with
          | some mid =>
              if s2.current_load < s2.max_load then
                (s2, [AgentOut.ack (some mid), AgentOut.bid (mkBid rand s2 m.task)])
              else (s2, [AgentOut.ack (some mid)])
          | none => (s2, [])
        else
          if s2.current_load < s2.max_load then
            (s2, [AgentOut.bid (mkBid rand s2 m.task)])
          else (s2, [])

/-- Embeds `Agent.handle_task_allocation` (agent.py lines 135-181).  Note that the
handler increments `current_load` without consulting `max_load`, that the
crashed branch reverts only `allocated_task_ids` and `current_load` (the
`assigned_tasks` append and the `processed_message_ids` add persist), and
that the accepted branch spawns `execute_task` in a thread. -/
def handle_task_allocation (s : AgentState) (m : TaskAllocationMsg) :
    AgentState × List AgentOut :=
  if m.msg_type ≠ "task_allocation" then (s, [])
  else if m.agent_id ≠ s.agent_id then (s, [])
  else if msgSeen m.msg_id s.processed_message_ids then (s, [])
  else
    let tid := m.task.task_id
    if tid ∈ s.allocated_task_ids then
      (s, if m.requires_ack then [AgentOut.ack m.msg_id] else [])
    else
      let s1 : AgentState :=
        { s with
          processed_message_ids := addIfTruthy m.msg_id s.processed_message_ids
          allocated_task_ids := setAdd s.allocated_task_ids tid
          assigned_tasks := s.assigned_tasks ++ [m.task]
          current_load := s.current_load + 1 }
      if s1.is_crashed then
        let s2 : AgentState :=
          { s1 with
            allocated_task_ids := setDiscard s1.allocated_task_ids tid
            current_load := s1.current_load - 1 }
        (s2, if m.requires_ack then [AgentOut.ack m.msg_id] else [])
      else
        (s1, (if m.requires_ack then [AgentOut.ack m.msg_id] else [])
              ++ [AgentOut.spawnExec m.task])

/-- Embeds `Agent.send_heartbeat` (agent.py lines 281-302). -/
def sendHeartbeat (now : ℚ) (s : AgentState) : AgentState × AgentOut :=
  let status :=
    if s.current_load = 0 then "idle"
    else if s.current_load < s.max_load then "busy"
    else "overloaded"
  ({ s with last_heartbeat := now },
   AgentOut.heartbeat
     { agent_id := s.agent_id, timestamp := now, status := status,
       current_load := s.current_load, max_load := s.max_load })

/-- Embeds `Agent.recover` (agent.py lines 388-401): returns the new state, the
published messages (in publication order) and the Boolean result. -/
def recover (now : ℚ) (s : AgentState) : AgentState × List AgentOut × Bool :=
  if s.is_crashed then
    let s1 : AgentState :=
      { s with
        is_crashed := false
        crash_time := none
        last_heartbeat := now
        bid_task_ids := [] }
    let (s2, hb) := sendHeartbeat now s1
    (s2, [AgentOut.agentEvent "agent_recovered" none, hb], true)
  else (s, [], false)

example :
    (handle_task_allocation (agentInit "a1" 0)
      { msg_id := some "m1", msg_type := "task_allocation", requires_ack := true,
        task := { task_id := "t1", priority := 5, estimated_time := 1,
                  description := "d", created_at := 0 },
        agent_id := "a1" }).1.current_load = 1 := by decide

example :
    (recover 3 (agentInit "a1" 0)).2.2 = false := by decide

/-! ### Coordinator (src/coordinator.py) -/

structure Activity where
  type : String
  task_id : Option String
  agent_id : Option String
  bid_value : Option ℚ
  total_bids : Option Nat
  timestamp : ℚ
deriving DecidableEq

structure PendingInfo where
  task : Task
  bids : List BidData
  broadcast_at : ℚ
deriving DecidableEq

structure AllocRecord where
  task : Task
  agent : String
  bid_value : ℚ
  allocated_at : ℚ
deriving DecidableEq

structure CoordState where
  tasks : List Task
  pending_tasks : List (String × PendingInfo)
  allocated_tasks : List AllocRecord
  agent_tasks : List (String × List String)
  failed_agents : List String
  task_bids : List (String × List BidData)
  completed_task_ids : List String
  cancelled_task_ids : List String
  activity_log : List Activity
  max_activity_log : Nat
deriving DecidableEq

inductive CoordOut where
  | publishAllocation (msg_id : String) (task : Task) (agent_id : String)
      (winning_bid : BidData) (requires_ack : Bool)
deriving DecidableEq

/-- Wire form of a `BID` message as seen by `Coordinator.handle_bid`. -/
structure BidMsg where
  msg_id : Option String
  msg_type : String
  sender_id : String
  bid : BidData
deriving DecidableEq

/-- Embeds `Coordinator._log_activity` (coordinator.py lines 552-558): append, then
pop the oldest entry when the log exceeds `max_activity_log`. -/
def logActivity (st : CoordState) (a : Activity) : CoordState :=
  let log := st.activity_log ++ [a]
  { st with activity_log := if st.max_activity_log < log.length then log.drop 1 else log }

/-- Embeds `Coordinator.handle_bid` (coordinator.py lines 82-111): record the bid
only when its task is still pending and this agent has not bid on it yet. -/
def handle_bid (now : ℚ) (st : CoordState) (m : BidMsg) : CoordState :=
  if m.msg_type ≠ "bid" then st
  else
    match dictLookup st.pending_tasks m.bid.task_id with
    | none => st
    | some info =>
      if info.bids.any (fun b => b.agent_id == m.bid.agent_id) then st
      else
        let st1 : CoordState :=
          { st with pending_tasks :=
              (dictInsert st.pending_tasks m.bid.task_id
                ({ info with bids := info.bids ++ [m.bid] })) }
        logActivity st1
          { type := "bid", task_id := some m.bid.task_id,
            agent_id := some m.bid.agent_id, bid_value := some m.bid.bid_value,
            total_bids := none, timestamp := now }

/-- The comparator underlying Python `sorted(..., key=lambda x:
x['bid_value'])`. -/
def bidLE : BidData → BidData → Bool :=
  fun a b => decide (a.bid_value ≤ b.bid_value)

/-- Python `sorted(valid_bids, key=lambda x: x['bid_value'])`: a stable sort
ascending on `bid_value` (coordinator.py line 150). -/
def pySortedByBidValue (l : List BidData) : List BidData :=
  l.mergeSort bidLE

/-- Embeds `Coordinator._send_allocation` (coordinator.py lines 162-199); the fresh
`uuid4` message id is the `msg_id` parameter. -/
def send_allocation (now : ℚ) (msg_id : String) (st : CoordState) (task : Task)
    (agent_id : String) (winning_bid : BidData) (total_bids : Nat) :
    CoordState × List CoordOut :=
  let st1 : CoordState :=
    { st with allocated_tasks :=
        st.allocated_tasks ++
          [{ task := task, agent := agent_id,
             bid_value := winning_bid.bid_value, allocated_at := now }] }
  let st2 : CoordState :=
    { st1 with agent_tasks :=
        match dictLookup st1.agent_tasks agent_id with
        | none => dictInsert st1.agent_tasks agent_id [task.task_id]
        | some ts => dictInsert st1.agent_tasks agent_id (ts ++ [task.task_id]) }
  let st3 := logActivity st2
    { type := "allocation", task_id := some task.task_id,
      agent_id := some agent_id, bid_value := some winning_bid.bid_value,
      total_bids := some total_bids, timestamp := now }
  (st3, [CoordOut.publishAllocation msg_id task agent_id winning_bid true])

/-- Body of `Coordinator.allocate_task` for a task that is still a key of
`pending_tasks` (coordinator.py lines 124-160).  When no valid
(non-failed) bid exists the function returns with the state unchanged in
both sub-branches — the `pending_tasks` entry is not removed even when the
raw bid list is empty. -/
def allocateTaskBody (now : ℚ) (allocMsgId : String) (st : CoordState)
    (task_id : String) (info : PendingInfo) : CoordState × List CoordOut :=
  if task_id ∈ st.completed_task_ids then
    ({ st with pending_tasks := dictErase st.pending_tasks task_id }, [])
  else if task_id ∈ st.cancelled_task_ids then
    ({ st with pending_tasks := dictErase st.pending_tasks task_id }, [])
  else
    let bids := info.bids
    let valid_bids := bids.filter (fun b => decide (b.agent_id ∉ st.failed_agents))
    match pySortedByBidValue valid_bids with
    | [] => (st, [])
    | winning_bid :: _ =>
      let st1 : CoordState :=
        { st with task_bids :=
            dictInsert st.task_bids task_id (pySortedByBidValue valid_bids) }
      let (st2, outs) :=
        send_allocation now allocMsgId st1 info.task winning_bid.agent_id
          winning_bid bids.length
      ({ st2 with pending_tasks := dictErase st2.pending_tasks task_id }, outs)

/-- Embeds `Coordinator.allocate_task` (coordinator.py lines 118-160). -/
def allocate_task (now : ℚ) (allocMsgId : String) (st : CoordState)
    (task_id : String) : CoordState × List CoordOut :=
  match dictLookup st.pending_tasks task_id with
  | none => (st, [])
  | some info => allocateTaskBody now allocMsgId st task_id info

/-! ### Broker (src/communication/broker.py, `InMemoryBroker`) -/

/-- The fields of a published message that the reliable-delivery machinery
reads (`message.get('msg_id')`, `message.get('requires_ack')`); all system
envelopes carry a non-empty `msg_id`. -/
structure PubMsg where
  msg_id : String
  requires_ack : Bool
deriving DecidableEq

structure AckEntry where
  channel : String
  message : PubMsg
  sent_at : ℚ
  retries : Nat
deriving DecidableEq

structure BrokerState where
  pending_acks : List (String × AckEntry)
  ack_timeout : ℚ
  max_retries : Nat
  running : Bool
deriving DecidableEq

inductive BrokerOut where
  | enqueue (channel : String) (msg : PubMsg)
deriving DecidableEq

/-- Embeds `InMemoryBroker.__init__` with `listen()` already called
(`running = True`, `ack_timeout = 5`, `max_retries = 3`). -/
def brokerInit : BrokerState :=
  { pending_acks := [], ack_timeout := 5, max_retries := 3, running := true }

/-- Embeds `InMemoryBroker.publish` (broker.py lines 33-56): when `reliable` and
the message requires an ACK, (re)record the pending-ACK entry keyed by
`msg_id` with `sent_at = now` and `retries = 0`, then enqueue the message. -/
def publish (now : ℚ) (st : BrokerState) (channel : String) (msg : PubMsg)
    (reliable : Bool) : BrokerState × List BrokerOut :=
  if !st.running then (st, [])
  else
    let st1 :=
      if reliable && msg.requires_ack then
        { st with pending_acks :=
            (dictInsert st.pending_acks msg.msg_id
              ({ channel := channel, message := msg, sent_at := now, retries := 0 })) }
      else st
    (st1, [BrokerOut.enqueue channel msg])

/-- Embeds `InMemoryBroker.handle_ack` (broker.py lines 107-112). -/
def handle_ack (st : BrokerState) (msg_id : String) : BrokerState :=
  match dictLookup st.pending_acks msg_id with
  | some _ => { st with pending_acks := dictErase st.pending_acks msg_id }
  | none => st

/-- One iteration of the `for msg_id, info in list(self.pending_acks.items())`
loop body of `InMemoryBroker.check_timeouts` (broker.py lines 121-133),
acting on the current table `acc` while reading the snapshot entry `kv`.
The retransmission calls `publish(channel, message, reliable=True)`, which
rebinds `pending_acks[msg_id]` to a fresh record with `retries = 0` and
`sent_at = now`; the subsequent `info['retries'] += 1` and
`info['sent_at'] = current_time` mutate the snapshot object that the
rebinding just detached from the table, so they have no effect on it. -/
def checkStep (now : ℚ) (acc : BrokerState × List BrokerOut)
    (kv : String × AckEntry) : BrokerState × List BrokerOut :=
  let st := acc.1
  if st.ack_timeout < now - kv.2.sent_at then
    if kv.2.retries < st.max_retries then
      let (st1, os) := publish now st kv.2.channel kv.2.message true
      (st1, acc.2 ++ os)
    else
      ({ st with pending_acks := dictErase st.pending_acks kv.1 }, acc.2)
  else acc

/-- Embeds `InMemoryBroker.check_timeouts` (broker.py lines 114-133). -/
def check_timeouts (now : ℚ) (st : BrokerState) : BrokerState × List BrokerOut :=
  if !st.running then (st, [])
  else st.pending_acks.foldl (checkStep now) (st, [])

/-! ### Helper lemmas about the dict and set models -/

lemma dictLookup_eq_none_of_not_mem {α : Type} (d : List (String × α)) (k : String)
    (h : k ∉ d.map Prod.fst) : dictLookup d k = none := by
  induction d with
  | nil => rfl
  | cons kv rest ih =>
    simp only [List.map_cons, List.mem_cons, not_or] at h
    simp only [dictLookup]
    rw [if_neg (by exact fun hkk => h.1 hkk.symm), ih h.2]

lemma dictLookup_dictErase_self {α : Type} (d : List (String × α)) (k : String)
    (hnd : (d.map Prod.fst).Nodup) : dictLookup (dictErase d k) k = none := by
  induction d with
  | nil => rfl
  | cons kv rest ih =>
    simp only [List.map_cons, List.nodup_cons] at hnd
    simp only [dictErase]
    by_cases hk : kv.1 = k
    · rw [if_pos hk]
      exact dictLookup_eq_none_of_not_mem rest k (hk ▸ hnd.1)
    · rw [if_neg hk]
      simp only [dictLookup]
      rw [if_neg hk, ih hnd.2]

lemma dictLookup_dictErase_ne {α : Type} (d : List (String × α)) (k k' : String)
    (h : k' ≠ k) : dictLookup (dictErase d k) k' = dictLookup d k' := by
  induction d with
  | nil => rfl
  | cons kv rest ih =>
    simp only [dictErase, dictLookup]
    by_cases hk : kv.1 = k
    · rw [if_pos hk, if_neg (fun hkk : kv.1 = k' => h (hkk ▸ hk))]
    · rw [if_neg hk]
      simp only [dictLookup]
      by_cases hk2 : kv.1 = k'
      · rw [if_pos hk2, if_pos hk2]
      · rw [if_neg hk2, if_neg hk2, ih]

lemma dictErase_length {α : Type} (d : List (String × α)) (k : String) (e : α)
    (h : dictLookup d k = some e) : (dictErase d k).length + 1 = d.length := by
  induction d with
  | nil => simp [dictLookup] at h
  | cons kv rest ih =>
    simp only [dictLookup] at h
    simp only [dictErase]
    by_cases hk : kv.1 = k
    · rw [if_pos hk]; simp
    · rw [if_neg hk] at h ⊢
      simp only [List.length_cons]
      rw [← ih h]

lemma dictLookup_dictInsert_self {α : Type} (d : List (String × α)) (k : String)
    (v : α) : dictLookup (dictInsert d k v) k = some v := by
  induction d with
  | nil => simp [dictInsert, dictLookup]
  | cons kv rest ih =>
    simp only [dictInsert]
    by_cases hk : kv.1 = k
    · rw [if_pos hk]; simp [dictLookup]
    · rw [if_neg hk]
      simp only [dictLookup]
      rw [if_neg hk, ih]

lemma mem_setAdd_self (p : List String) (x : String) : x ∈ setAdd p x := by
  unfold setAdd
  split
  · assumption
  · simp

lemma setAdd_of_not_mem (p : List String) (x : String) (h : x ∉ p) :
    setAdd p x = p ++ [x] := by
  unfold setAdd
  rw [if_neg h]

/-! ### Concrete fixtures used by witnesses and counterexamples -/

def task0 : Task :=
  { task_id := "t1", priority := 5, estimated_time := 1, description := "d",
    created_at := 0 }

def coordEmpty : CoordState :=
  { tasks := [], pending_tasks := [], allocated_tasks := [], agent_tasks := [],
    failed_agents := [], task_bids := [], completed_task_ids := [],
    cancelled_task_ids := [], activity_log := [], max_activity_log := 100 }

/-! ### C10 — `recover` is a no-op on a non-crashed agent -/

/-- C10: calling `recover()` on an agent whose `is_crashed` flag is false
returns `False` and changes nothing and publishes nothing; when
`is_crashed` is true it clears the crash state, clears `bid_task_ids`,
emits `agent_recovered`, sends a heartbeat, and returns `True`. -/
theorem recover_spec (now : ℚ) (s : AgentState) :
    (s.is_crashed = false → recover now s = (s, [], false)) ∧
    (s.is_crashed = true →
      recover now s =
        ({ s with is_crashed := false, crash_time := none, bid_task_ids := [],
                  last_heartbeat := now },
         [AgentOut.agentEvent "agent_recovered" none,
          AgentOut.heartbeat
            { agent_id := s.agent_id, timestamp := now,
              status := if s.current_load = 0 then "idle"
                        else if s.current_load < s.max_load then "busy"
                        else "overloaded",
              current_load := s.current_load, max_load := s.max_load }],
         true)) := by
  constructor <;> intro h <;> simp [recover, sendHeartbeat, h]

/-- Witness for C10 at a concrete non-crashed agent. -/
theorem recover_spec_witness :
    recover 3 (agentInit "a1" 0) = (agentInit "a1" 0, [], false) :=
  (recover_spec 3 (agentInit "a1" 0)).1 rfl

/-! ### C9 — late/unknown bids are silently dropped -/

/-- C9: a bid whose `task_id` is not a key of `pending_tasks` leaves the
coordinator state — in particular `pending_tasks`, `task_bids` and the
activity log — completely unchanged. -/
theorem handle_bid_unknown_task_noop (now : ℚ) (st : CoordState) (m : BidMsg)
    (h : dictLookup st.pending_tasks m.bid.task_id = none) :
    handle_bid now st m = st := by
  unfold handle_bid
  split
  · rfl
  · rw [h]

/-- Witness for C9: bid for an unknown task against an empty coordinator. -/
theorem handle_bid_unknown_task_noop_witness :
    handle_bid 0 coordEmpty
      { msg_id := some "m1", msg_type := "bid", sender_id := "a1",
        bid := { agent_id := "a1", task_id := "t1", bid_value := 3,
                 current_load := 0, estimated_completion_time := 1 } }
      = coordEmpty :=
  handle_bid_unknown_task_noop 0 coordEmpty _ rfl

/-! ### C8 — a duplicate broadcast is dropped without state change or ACK -/

/-- C8: a task broadcast whose (non-empty) `msg_id` is already in
`processed_message_ids` is dropped before the ACK logic runs: the state is
returned unchanged and nothing is published, even when `requires_ack` is
set. -/
theorem handle_task_broadcast_duplicate_frame (rand : ℚ) (s : AgentState)
    (m : TaskBroadcastMsg) (mid : String) (h1 : m.msg_id = some mid)
    (h2 : mid ≠ "") (h3 : mid ∈ s.processed_message_ids) :
    handle_task_broadcast rand s m = (s, []) := by
  have hseen : msgSeen m.msg_id s.processed_message_ids = true := by
    simp [msgSeen, h1, h2, h3]
  unfold handle_task_broadcast
  rw [hseen]
  simp

/-- Witness for C8: retransmitted reliable broadcast, `msg_id` already
processed. -/
theorem handle_task_broadcast_duplicate_frame_witness :
    handle_task_broadcast 0
      ({ agentInit "a1" 0 with processed_message_ids := ["m1"] })
      { msg_id := some "m1", msg_type := "task_broadcast",
        requires_ack := true, task := task0 }
      = ({ agentInit "a1" 0 with processed_message_ids := ["m1"] }, []) :=
  handle_task_broadcast_duplicate_frame 0 _ _ "m1" rfl (by decide) (by decide)

/-! ### C6 — ACK handling removes exactly the matched entry, idempotently -/

/-- C6: an ACK matching a pending entry removes exactly that entry (the
matched key maps to nothing afterwards, every other key is untouched, and
the table shrinks by exactly one); a second ACK for the same `msg_id`, or
an ACK matching no entry, leaves the table unchanged — all without
raising. -/
theorem handle_ack_spec (st : BrokerState) (mid : String) (e : AckEntry) :
    ((st.pending_acks.map Prod.fst).Nodup →
      dictLookup st.pending_acks mid = some e →
        ((handle_ack st mid).pending_acks = dictErase st.pending_acks mid ∧
         dictLookup (handle_ack st mid).pending_acks mid = none ∧
         (∀ k, k ≠ mid →
            dictLookup (handle_ack st mid).pending_acks k
              = dictLookup st.pending_acks k) ∧
         (handle_ack st mid).pending_acks.length + 1 = st.pending_acks.length)) ∧
    ((st.pending_acks.map Prod.fst).Nodup →
      handle_ack (handle_ack st mid) mid = handle_ack st mid) ∧
    (dictLookup st.pending_acks mid = none → handle_ack st mid = st) := by
  refine ⟨fun hnd hsome => ?_, fun hnd => ?_, fun hnone => ?_⟩
  · have hh : handle_ack st mid
        = { st with pending_acks := dictErase st.pending_acks mid } := by
      unfold handle_ack
      rw [hsome]
    refine ⟨by rw [hh], ?_, fun k hk => ?_, ?_⟩
    · rw [hh]
      exact dictLookup_dictErase_self _ _ hnd
    · rw [hh]
      exact dictLookup_dictErase_ne _ _ _ hk
    · rw [hh]
      exact dictErase_length _ _ e hsome
  · cases hcase : dictLookup st.pending_acks mid with
    | none =>
      have : handle_ack st mid = st := by
        unfold handle_ack
        rw [hcase]
      simp only [this]
    | some e2 =>
      have hh : handle_ack st mid
          = { st with pending_acks := dictErase st.pending_acks mid } := by
        unfold handle_ack
        rw [hcase]
      rw [hh]
      unfold handle_ack
      rw [show dictLookup (dictErase st.pending_acks mid) mid = none from
            dictLookup_dictErase_self _ _ hnd]
  · unfold handle_ack
    rw [hnone]

def ackEntry0 : AckEntry :=
  { channel := "tasks", message := { msg_id := "m1", requires_ack := true },
    sent_at := 0, retries := 0 }

def brokerOne : BrokerState :=
  { brokerInit with pending_acks := [("m1", ackEntry0)] }

/-- Witness for C6 at a one-entry pending table. -/
theorem handle_ack_spec_witness :
    handle_ack (handle_ack brokerOne "m1") "m1" = handle_ack brokerOne "m1" :=
  (handle_ack_spec brokerOne "m1" ackEntry0).2.1 (by decide)

/-! ### C1 — `current_load ≤ max_load` is not preserved by allocations -/

def mkTask (tid : String) : Task :=
  { task_id := tid, priority := 5, estimated_time := 1, description := "d",
    created_at := 0 }

def mkAllocMsg (mid tid : String) : TaskAllocationMsg :=
  { msg_id := some mid, msg_type := "task_allocation", requires_ack := true,
    task := mkTask tid, agent_id := "a1" }

/-- Six allocations for six distinct tasks the agent bid on while idle,
delivered back to back — exactly the scenario of claim C1. -/
def c1Final : AgentState :=
  [mkAllocMsg "m1" "t1", mkAllocMsg "m2" "t2", mkAllocMsg "m3" "t3",
   mkAllocMsg "m4" "t4", mkAllocMsg "m5" "t5", mkAllocMsg "m6" "t6"].foldl
    (fun s m => (handle_task_allocation s m).1) (agentInit "a1" 0)

/-- C1 fails on the code: `handle_task_allocation` increments
`current_load` without consulting `max_load`, so a fresh agent
(`max_load = 5`) that receives six fresh allocations ends with
`current_load = 6 > max_load`. -/
theorem current_load_exceeds_max_load :
    c1Final.current_load = 6 ∧ c1Final.max_load = 5 ∧
    ¬ c1Final.current_load ≤ c1Final.max_load := by decide

/-! ### C3 — allocate_task with no valid bids -/

def pendC3 : PendingInfo := { task := task0, bids := [], broadcast_at := 0 }

def coordC3 : CoordState :=
  { coordEmpty with tasks := [task0], pending_tasks := [("t1", pendC3)] }

/-- C3 as stated is false: with an empty raw bid list `allocate_task` only
logs a warning and returns — the `pending_tasks` entry for the task is NOT
removed. -/
theorem allocate_task_empty_raw_keeps_pending :
    allocate_task 0 "alloc-msg" coordC3 "t1" = (coordC3, []) ∧
    dictLookup (allocate_task 0 "alloc-msg" coordC3 "t1").1.pending_tasks "t1"
      = some pendC3 := by
  have h : allocate_task 0 "alloc-msg" coordC3 "t1" = (coordC3, []) := by
    unfold allocate_task allocateTaskBody
    simp [coordC3, coordEmpty, pendC3, dictLookup, pySortedByBidValue]
  exact ⟨h, by rw [h]; rfl⟩

/-- C3 amended: whenever the filtered (non-failed) bid set of a pending,
non-terminal task is empty — whether the raw bid list is empty or every
bidder is currently failed — `allocate_task` returns with the coordinator
state completely unchanged; in particular the `pending_tasks` entry stays. -/
theorem allocate_task_no_valid_bids_noop (now : ℚ) (mid : String)
    (st : CoordState) (tid : String) (info : PendingInfo)
    (h1 : dictLookup st.pending_tasks tid = some info)
    (h2 : tid ∉ st.completed_task_ids) (h3 : tid ∉ st.cancelled_task_ids)
    (h4 : info.bids.filter (fun b => decide (b.agent_id ∉ st.failed_agents)) = []) :
    allocate_task now mid st tid = (st, []) := by
  have h4' : info.bids.filter (fun b => !decide (b.agent_id ∈ st.failed_agents))
      = [] := by simpa using h4
  unfold allocate_task
  rw [h1]
  unfold allocateTaskBody
  simp [h2, h3, h4', pySortedByBidValue]

def bidA1 : BidData :=
  { agent_id := "a1", task_id := "t1", bid_value := 3, current_load := 0,
    estimated_completion_time := 1 }

def pendC3' : PendingInfo := { pendC3 with bids := [bidA1] }

/-- Coordinator whose only pending task has a single bid from an agent that
is currently in `failed_agents`. -/
def coordC3' : CoordState :=
  { coordC3 with failed_agents := ["a1"], pending_tasks := [("t1", pendC3')] }

/-- Witness for the amended C3: a pending task whose only bidder is in
`failed_agents` is left untouched. -/
theorem allocate_task_no_valid_bids_noop_witness :
    allocate_task 0 "alloc-msg" coordC3' "t1" = (coordC3', []) :=
  allocate_task_no_valid_bids_noop 0 "alloc-msg" coordC3' "t1" pendC3' rfl
    (by decide) (by decide) (by decide)

/-! ### C5 — idempotence of message delivery: helper lemmas -/

lemma addIfTruthy_some (mid : String) (p : List String) (h : mid ≠ "") :
    addIfTruthy (some mid) p = setAdd p mid := by
  simp [addIfTruthy, h]

lemma msgSeen_eq_true (mid : String) (p : List String) (h2 : mid ≠ "")
    (h3 : mid ∈ p) : msgSeen (some mid) p = true := by
  simp [msgSeen, h2, h3]

lemma handle_task_broadcast_wrong_type (rand : ℚ) (s : AgentState)
    (m : TaskBroadcastMsg) (h : m.msg_type ≠ "task_broadcast") :
    handle_task_broadcast rand s m = (s, []) := by
  unfold handle_task_broadcast
  rw [if_pos h]

lemma handle_task_broadcast_seen (rand : ℚ) (s : AgentState)
    (m : TaskBroadcastMsg)
    (h : msgSeen m.msg_id s.processed_message_ids = true) :
    handle_task_broadcast rand s m = (s, []) := by
  unfold handle_task_broadcast
  rw [h]
  simp

lemma handle_task_broadcast_processed (rand : ℚ) (s : AgentState)
    (m : TaskBroadcastMsg) (ht : m.msg_type = "task_broadcast")
    (h : msgSeen m.msg_id s.processed_message_ids = false) :
    (handle_task_broadcast rand s m).1.processed_message_ids
      = addIfTruthy m.msg_id s.processed_message_ids := by
  unfold handle_task_broadcast
  rw [if_neg (by simp [ht]), h]
  simp only [Bool.false_eq_true, if_false]
  repeat' split
  all_goals rfl

lemma handle_task_allocation_wrong_type (s : AgentState)
    (m : TaskAllocationMsg) (h : m.msg_type ≠ "task_allocation") :
    handle_task_allocation s m = (s, []) := by
  unfold handle_task_allocation
  rw [if_pos h]

lemma handle_task_allocation_wrong_agent (s : AgentState)
    (m : TaskAllocationMsg) (h : m.agent_id ≠ s.agent_id) :
    handle_task_allocation s m = (s, []) := by
  unfold handle_task_allocation
  by_cases htype : m.msg_type ≠ "task_allocation"
  · rw [if_pos htype]
  · rw [if_neg htype, if_pos h]

lemma handle_task_allocation_seen (s : AgentState) (m : TaskAllocationMsg)
    (h : msgSeen m.msg_id s.processed_message_ids = true) :
    handle_task_allocation s m = (s, []) := by
  unfold handle_task_allocation
  rw [h]
  split
  · rfl
  · split
    · rfl
    · simp

lemma handle_task_allocation_dup_task (s : AgentState) (m : TaskAllocationMsg)
    (htid : m.task.task_id ∈ s.allocated_task_ids) :
    (handle_task_allocation s m).1 = s := by
  unfold handle_task_allocation
  repeat' split
  all_goals simp_all

lemma handle_task_allocation_processed (s : AgentState) (m : TaskAllocationMsg)
    (ht : m.msg_type = "task_allocation") (ha : m.agent_id = s.agent_id)
    (h : msgSeen m.msg_id s.processed_message_ids = false)
    (htid : m.task.task_id ∉ s.allocated_task_ids) :
    (handle_task_allocation s m).1.processed_message_ids
      = addIfTruthy m.msg_id s.processed_message_ids := by
  unfold handle_task_allocation
  rw [if_neg (by simp [ht]), if_neg (by simp [ha]), h]
  simp only [Bool.false_eq_true, if_false]
  rw [if_neg htid]
  split
  all_goals rfl

/-! ### C5 — idempotence of message delivery -/

/-- C5: once a (non-empty) `msg_id` is in `processed_message_ids`,
re-delivery of that envelope to `handle_task_broadcast` or
`handle_task_allocation` changes nothing and publishes nothing; moreover
delivering any envelope (every system envelope carries a non-empty
`msg_id`) twice to either handler yields the same agent state as
delivering it once. -/
theorem delivery_idempotent (rand : ℚ) (s : AgentState)
    (mb : TaskBroadcastMsg) (ma : TaskAllocationMsg) (midb mida : String) :
    (mb.msg_id = some midb → midb ≠ "" →
      midb ∈ s.processed_message_ids →
        handle_task_broadcast rand s mb = (s, [])) ∧
    (ma.msg_id = some mida → mida ≠ "" →
      mida ∈ s.processed_message_ids →
        handle_task_allocation s ma = (s, [])) ∧
    (mb.msg_id = some midb → midb ≠ "" →
      (handle_task_broadcast rand (handle_task_broadcast rand s mb).1 mb).1
        = (handle_task_broadcast rand s mb).1) ∧
    (ma.msg_id = some mida → mida ≠ "" →
      (handle_task_allocation (handle_task_allocation s ma).1 ma).1
        = (handle_task_allocation s ma).1) := by
  refine ⟨fun h1 h2 h3 => ?_, fun h1 h2 h3 => ?_, fun h1 h2 => ?_, fun h1 h2 => ?_⟩
  · exact handle_task_broadcast_seen rand s mb (h1 ▸ msgSeen_eq_true midb _ h2 h3)
  · exact handle_task_allocation_seen s ma (h1 ▸ msgSeen_eq_true mida _ h2 h3)
  · by_cases ht : mb.msg_type = "task_broadcast"
    · by_cases hseen : msgSeen mb.msg_id s.processed_message_ids = true
      · have hfst : handle_task_broadcast rand s mb = (s, []) :=
          handle_task_broadcast_seen rand s mb hseen
        rw [hfst]
        show (handle_task_broadcast rand s mb).1 = s
        rw [hfst]
      · have hproc := handle_task_broadcast_processed rand s mb ht
          (Bool.not_eq_true _ ▸ hseen)
        have hseen2 : msgSeen mb.msg_id
            (handle_task_broadcast rand s mb).1.processed_message_ids = true := by
          rw [hproc, h1, addIfTruthy_some midb _ h2]
          exact msgSeen_eq_true midb _ h2 (mem_setAdd_self _ _)
        rw [handle_task_broadcast_seen rand _ mb hseen2]
    · have hfst : handle_task_broadcast rand s mb = (s, []) :=
        handle_task_broadcast_wrong_type rand s mb ht
      rw [hfst]
      show (handle_task_broadcast rand s mb).1 = s
      rw [hfst]
  · by_cases ht : ma.msg_type = "task_allocation"
    · by_cases ha : ma.agent_id = s.agent_id
      · by_cases hseen : msgSeen ma.msg_id s.processed_message_ids = true
        · have hfst : handle_task_allocation s ma = (s, []) :=
            handle_task_allocation_seen s ma hseen
          rw [hfst]
          show (handle_task_allocation s ma).1 = s
          rw [hfst]
        · by_cases htid : ma.task.task_id ∈ s.allocated_task_ids
          · have hfst : (handle_task_allocation s ma).1 = s :=
              handle_task_allocation_dup_task s ma htid
            rw [hfst]
            exact hfst
          · have hproc := handle_task_allocation_processed s ma ht ha
              (Bool.not_eq_true _ ▸ hseen) htid
            have hseen2 : msgSeen ma.msg_id
                (handle_task_allocation s ma).1.processed_message_ids = true := by
              rw [hproc, h1, addIfTruthy_some mida _ h2]
              exact msgSeen_eq_true mida _ h2 (mem_setAdd_self _ _)
            rw [handle_task_allocation_seen _ ma hseen2]
      · have hfst : handle_task_allocation s ma = (s, []) :=
          handle_task_allocation_wrong_agent s ma ha
        rw [hfst]
        show (handle_task_allocation s ma).1 = s
        rw [hfst]
    · have hfst : handle_task_allocation s ma = (s, []) :=
        handle_task_allocation_wrong_type s ma ht
      rw [hfst]
      show (handle_task_allocation s ma).1 = s
      rw [hfst]

/-! ### C4 — allocation sorts valid bids stably and allocates to the head -/

lemma bidLE_trans : ∀ (a b c : BidData), bidLE a b → bidLE b c → bidLE a c := by
  intro a b c hab hbc
  simp only [bidLE, decide_eq_true_eq] at *
  exact le_trans hab hbc

lemma bidLE_total : ∀ (a b : BidData), bidLE a b || bidLE b a := by
  intro a b
  simp only [bidLE]
  rcases le_total a.bid_value b.bid_value with h | h <;> simp [h]

lemma pySorted_perm (l : List BidData) : List.Perm (pySortedByBidValue l) l :=
  List.mergeSort_perm l bidLE

lemma pySorted_sorted (l : List BidData) :
    (pySortedByBidValue l).Pairwise (fun a b => a.bid_value ≤ b.bid_value) := by
  have h := List.sorted_mergeSort bidLE_trans bidLE_total l
  exact h.imp (fun hab => by simpa [bidLE] using hab)

/-- Stability of the Python sort: the bids of any fixed `bid_value` appear
in the output in exactly the order they had in the input. -/
lemma pySorted_stable (l : List BidData) (q : ℚ) :
    (pySortedByBidValue l).filter (fun b => decide (b.bid_value = q))
      = l.filter (fun b => decide (b.bid_value = q)) := by
  have hpair : (l.filter (fun b => decide (b.bid_value = q))).Pairwise
      (fun a b => bidLE a b) := by
    apply List.pairwise_of_forall_mem_list
    intro a ha b hb
    have ha' := (List.mem_filter.mp ha).2
    have hb' := (List.mem_filter.mp hb).2
    simp only [decide_eq_true_eq] at ha' hb'
    simp [bidLE, ha', hb']
  have hsub : List.Sublist (l.filter (fun b => decide (b.bid_value = q)))
      (pySortedByBidValue l) :=
    List.sublist_mergeSort bidLE_trans bidLE_total hpair (List.filter_sublist l)
  have hsub2 : List.Sublist (l.filter (fun b => decide (b.bid_value = q)))
      ((pySortedByBidValue l).filter (fun b => decide (b.bid_value = q))) := by
    have h := hsub.filter (fun b => decide (b.bid_value = q))
    simpa [List.filter_filter] using h
  have hlen : ((pySortedByBidValue l).filter (fun b => decide (b.bid_value = q))).length
      = (l.filter (fun b => decide (b.bid_value = q))).length :=
    ((pySorted_perm l).filter _).length_eq
  exact (hsub2.eq_of_length hlen.symm).symm

lemma pySorted_ne_nil (l : List BidData) (h : l ≠ []) :
    pySortedByBidValue l ≠ [] := by
  intro hnil
  have := congrArg List.length hnil
  rw [pySortedByBidValue, List.length_mergeSort] at this
  exact h (List.length_eq_zero.mp this)

lemma allocateTaskBody_valid (now : ℚ) (mid : String) (st : CoordState)
    (tid : String) (info : PendingInfo) (w : BidData) (rest : List BidData)
    (h2 : tid ∉ st.completed_task_ids) (h3 : tid ∉ st.cancelled_task_ids)
    (hsort : pySortedByBidValue
        (info.bids.filter (fun b => decide (b.agent_id ∉ st.failed_agents)))
      = w :: rest) :
    dictLookup (allocateTaskBody now mid st tid info).1.task_bids tid
        = some (w :: rest) ∧
    (allocateTaskBody now mid st tid info).2
        = [CoordOut.publishAllocation mid info.task w.agent_id w true] := by
  unfold allocateTaskBody
  rw [if_neg h2, if_neg h3]
  simp only [hsort]
  constructor
  · simp only [send_allocation, logActivity]
    exact dictLookup_dictInsert_self _ _ _
  · simp [send_allocation, logActivity]

/-- C4: when a pending, non-terminal task has at least one bid from a
non-failed agent, `allocate_task` stores in `task_bids` the list of
non-failed bids sorted ascending by `bid_value` with ties kept in
insertion order (stable sort), and publishes the (reliable) allocation to
the agent of the first bid of that sorted list. -/
theorem allocate_task_sorts_and_picks_head (now : ℚ) (mid : String)
    (st : CoordState) (tid : String) (info : PendingInfo)
    (h1 : dictLookup st.pending_tasks tid = some info)
    (h2 : tid ∉ st.completed_task_ids) (h3 : tid ∉ st.cancelled_task_ids)
    (h4 : info.bids.filter (fun b => decide (b.agent_id ∉ st.failed_agents)) ≠ []) :
    ∃ w rest,
      dictLookup (allocate_task now mid st tid).1.task_bids tid
          = some (w :: rest) ∧
      List.Perm (w :: rest)
        (info.bids.filter (fun b => decide (b.agent_id ∉ st.failed_agents))) ∧
      (w :: rest).Pairwise (fun a b => a.bid_value ≤ b.bid_value) ∧
      (∀ q : ℚ, (w :: rest).filter (fun b => decide (b.bid_value = q))
          = (info.bids.filter (fun b => decide (b.agent_id ∉ st.failed_agents))).filter
              (fun b => decide (b.bid_value = q))) ∧
      (allocate_task now mid st tid).2
          = [CoordOut.publishAllocation mid info.task w.agent_id w true] := by
  obtain ⟨w, rest, hsort⟩ : ∃ w rest,
      pySortedByBidValue
        (info.bids.filter (fun b => decide (b.agent_id ∉ st.failed_agents)))
      = w :: rest := by
    cases hs : pySortedByBidValue
        (info.bids.filter (fun b => decide (b.agent_id ∉ st.failed_agents))) with
    | nil => exact absurd hs (pySorted_ne_nil _ h4)
    | cons w rest => exact ⟨w, rest, rfl⟩
  have hbody := allocateTaskBody_valid now mid st tid info w rest h2 h3 hsort
  have hred : allocate_task now mid st tid = allocateTaskBody now mid st tid info := by
    unfold allocate_task
    rw [h1]
  refine ⟨w, rest, ?_, ?_, ?_, ?_, ?_⟩
  · rw [hred]
    exact hbody.1
  · rw [← hsort]
    exact pySorted_perm _
  · rw [← hsort]
    exact pySorted_sorted _
  · intro q
    rw [← hsort]
    exact pySorted_stable _ q
  · rw [hred]
    exact hbody.2

/-- Witness for C4: two bids, the later one lower, on a single pending
task. -/
def bidHigh : BidData :=
  { agent_id := "a1", task_id := "t1", bid_value := 7, current_load := 0,
    estimated_completion_time := 1 }

def bidLow : BidData :=
  { agent_id := "a2", task_id := "t1", bid_value := 2, current_load := 0,
    estimated_completion_time := 1 }

def pendC4 : PendingInfo :=
  { task := task0, bids := [bidHigh, bidLow], broadcast_at := 0 }

def coordC4 : CoordState :=
  { coordEmpty with tasks := [task0], pending_tasks := [("t1", pendC4)] }

theorem allocate_task_sorts_and_picks_head_witness :
    ∃ w rest,
      dictLookup (allocate_task 0 "alloc-msg" coordC4 "t1").1.task_bids "t1"
          = some (w :: rest) ∧
      List.Perm (w :: rest)
        (pendC4.bids.filter
            (fun b => decide (b.agent_id ∉ coordC4.failed_agents))) ∧
      (w :: rest).Pairwise (fun a b => a.bid_value ≤ b.bid_value) ∧
      (∀ q : ℚ, (w :: rest).filter (fun b => decide (b.bid_value = q))
          = ((pendC4.bids.filter
              (fun b => decide (b.agent_id ∉ coordC4.failed_agents))).filter
                (fun b => decide (b.bid_value = q)))) ∧
      (allocate_task 0 "alloc-msg" coordC4 "t1").2
          = [CoordOut.publishAllocation "alloc-msg"
              pendC4.task w.agent_id w true] :=
  allocate_task_sorts_and_picks_head 0 "alloc-msg" coordC4 "t1" pendC4
    (by decide) (by decide) (by decide) (by decide)

/-- Witness for C5: re-delivering an already-processed broadcast to a
concrete agent changes nothing. -/
theorem delivery_idempotent_witness :
    handle_task_broadcast 0
      ({ agentInit "a1" 0 with processed_message_ids := ["m7"] })
      { msg_id := some "m7", msg_type := "task_broadcast",
        requires_ack := true, task := task0 }
      = ({ agentInit "a1" 0 with processed_message_ids := ["m7"] }, []) :=
  (delivery_idempotent 0 ({ agentInit "a1" 0 with processed_message_ids := ["m7"] })
    { msg_id := some "m7", msg_type := "task_broadcast",
      requires_ack := true, task := task0 }
    { msg_id := some "m7", msg_type := "task_allocation",
      requires_ack := true, task := task0, agent_id := "a1" }
    "m7" "m7").1 rfl (by decide) (by decide)

/-! ### C2 — the retransmission loop never increments retries

`InMemoryBroker.check_timeouts` retransmits via
`self.publish(info['channel'], info['message'], reliable=True)`, and
`publish` rebinds `pending_acks[msg_id]` to a fresh record with
`retries = 0`; the `info['retries'] += 1` that follows mutates the old,
now-detached record.  Hence the stored retry count never reaches
`max_retries` and the entry is never dropped. -/

def c2Msg : PubMsg := { msg_id := "m1", requires_ack := true }

def c2Entry : AckEntry :=
  { channel := "allocations", message := c2Msg, sent_at := 0, retries := 0 }

/-- A broker holding one reliable message sent at time 0 and never ACKed. -/
def c2Start : BrokerState :=
  { pending_acks := [("m1", c2Entry)], ack_timeout := 5, max_retries := 3,
    running := true }

/-- Run the 1-second timeout checker at times 6, 12, 18, …: each invocation
is past the 5-second ACK timeout of the entry it sees. -/
def c2Iter : Nat → BrokerState × List BrokerOut
  | 0 => (c2Start, [])
  | n + 1 =>
      let p := c2Iter n
      let q := check_timeouts (6 * ((n : ℚ) + 1)) p.1
      (q.1, p.2 ++ q.2)

/-- C2 fails on the code: after `n` timeout checks the never-ACKed message
has been retransmitted `n` times (unboundedly, `n` beyond
`max_retries = 3`), yet its pending entry is still present with
`retries = 0` — the retransmission republish resets the entry instead of
incrementing it, so the entry is never removed. -/
theorem check_timeouts_retransmits_unboundedly (n : Nat) :
    (c2Iter n).1 = { c2Start with pending_acks :=
        [("m1", { c2Entry with sent_at := 6 * (n : ℚ) })] } ∧
    (c2Iter n).2.length = n := by
  induction n with
  | zero =>
      refine ⟨?_, rfl⟩
      show c2Start = _
      norm_num [c2Start, c2Entry]
  | succ n ih =>
      obtain ⟨ih1, ih2⟩ := ih
      have hstep : c2Iter (n + 1)
          = ((check_timeouts (6 * ((n : ℚ) + 1)) (c2Iter n).1).1,
             (c2Iter n).2 ++ (check_timeouts (6 * ((n : ℚ) + 1)) (c2Iter n).1).2) :=
        rfl
      have hct : check_timeouts (6 * ((n : ℚ) + 1))
          ({ c2Start with pending_acks :=
              [("m1", { c2Entry with sent_at := 6 * (n : ℚ) })] })
          = ({ c2Start with pending_acks :=
                [("m1", { c2Entry with sent_at := 6 * ((n : ℚ) + 1) })] },
             [BrokerOut.enqueue "allocations" c2Msg]) := by
        have h6 : (6 : ℚ) * ((n : ℚ) + 1) - 6 * (n : ℚ) = 6 := by ring
        unfold check_timeouts checkStep publish
        simp [c2Start, c2Entry, c2Msg, dictInsert, h6]
        norm_num
      have hcast : ((n + 1 : Nat) : ℚ) = (n : ℚ) + 1 := by push_cast; ring
      rw [hstep, ih1, hct]
      refine ⟨?_, by simp [ih2]⟩
      rw [hcast]

/-! ### C7 — `processed_message_ids` is unbounded -/

/-- A message delivered to one of the two deduplicating agent handlers. -/
inductive AgentDelivery where
  | bcast (m : TaskBroadcastMsg)
  | alloc (m : TaskAllocationMsg)

def deliveryMsgId : AgentDelivery → Option String
  | AgentDelivery.bcast m => m.msg_id
  | AgentDelivery.alloc m => m.msg_id

def deliverOne (rand : ℚ) (s : AgentState) : AgentDelivery → AgentState
  | AgentDelivery.bcast m => (handle_task_broadcast rand s m).1
  | AgentDelivery.alloc m => (handle_task_allocation s m).1

def runDeliveries (rand : ℚ) (s : AgentState) (ds : List AgentDelivery) :
    AgentState :=
  ds.foldl (deliverOne rand) s

def mkBcastDelivery (mid : String) : AgentDelivery :=
  AgentDelivery.bcast
    { msg_id := some mid, msg_type := "task_broadcast", requires_ack := false,
      task := task0 }

/-- Delivering task broadcasts with fresh, pairwise-distinct, non-empty
message ids appends every id to `processed_message_ids`; nothing is ever
evicted. -/
lemma processed_growth (rand : ℚ) (s : AgentState) (ids : List String)
    (hn : ids.Nodup) (hfresh : ∀ i ∈ ids, i ∉ s.processed_message_ids)
    (hne : ∀ i ∈ ids, i ≠ "") :
    (runDeliveries rand s (ids.map mkBcastDelivery)).processed_message_ids
      = s.processed_message_ids ++ ids := by
  induction ids generalizing s with
  | nil => simp [runDeliveries]
  | cons i rest ih =>
      have hifresh : i ∉ s.processed_message_ids :=
        hfresh i (List.mem_cons_self _ _)
      have hine : i ≠ "" := hne i (List.mem_cons_self _ _)
      have hmseen : msgSeen (some i) s.processed_message_ids = false := by
        simp [msgSeen, hifresh]
      have hproc :
          (handle_task_broadcast rand s
            { msg_id := some i, msg_type := "task_broadcast",
              requires_ack := false, task := task0 }).1.processed_message_ids
          = s.processed_message_ids ++ [i] := by
        rw [handle_task_broadcast_processed rand s _ rfl hmseen,
            addIfTruthy_some i _ hine, setAdd_of_not_mem _ _ hifresh]
      have hrun : runDeliveries rand s ((i :: rest).map mkBcastDelivery)
          = runDeliveries rand
              (deliverOne rand s (mkBcastDelivery i)) (rest.map mkBcastDelivery) :=
        rfl
      rw [hrun]
      have hrest := ih
        (deliverOne rand s (mkBcastDelivery i))
        hn.of_cons
        (by
          intro j hj
          have hji : j ≠ i := by
            intro hcontra
            exact (List.nodup_cons.mp hn).1 (hcontra ▸ hj)
          have hjs : j ∉ s.processed_message_ids := hfresh j (List.mem_cons_of_mem _ hj)
          show j ∉ (deliverOne rand s (mkBcastDelivery i)).processed_message_ids
          rw [show (deliverOne rand s (mkBcastDelivery i)).processed_message_ids
              = s.processed_message_ids ++ [i] from hproc]
          simp [hjs, hji])
        (fun j hj => hne j (List.mem_cons_of_mem _ hj))
      rw [hrest,
          show (deliverOne rand s (mkBcastDelivery i)).processed_message_ids
            = s.processed_message_ids ++ [i] from hproc,
          List.append_assoc, List.singleton_append]

/-- C7 fails on the code: no bound exists for `processed_message_ids` — for
every candidate bound `B`, delivering `B + 1` task broadcasts with
pairwise-distinct msg_ids to a fresh agent leaves `B + 1` ids in the set;
the agent never evicts. -/
theorem processed_message_ids_unbounded :
    ¬ ∃ B : Nat, ∀ ds : List AgentDelivery,
        (ds.filterMap deliveryMsgId).Nodup →
        (runDeliveries 0 (agentInit "a1" 0) ds).processed_message_ids.length
          ≤ B := by
  rintro ⟨B, hB⟩
  have hinj : Function.Injective
      (fun k : Nat => String.mk (List.replicate (k + 1) 'a')) := by
    intro x y hxy
    have hdata : List.replicate (x + 1) 'a' = List.replicate (y + 1) 'a' := by
      simpa using congrArg String.data hxy
    have hlen := congrArg List.length hdata
    simp only [List.length_replicate] at hlen
    omega
  have hnodup : ((List.range (B + 1)).map
      (fun k => String.mk (List.replicate (k + 1) 'a'))).Nodup :=
    (List.nodup_range _).map hinj
  have hne : ∀ i ∈ (List.range (B + 1)).map
      (fun k => String.mk (List.replicate (k + 1) 'a')), i ≠ "" := by
    intro i hi
    obtain ⟨k, _, rfl⟩ := List.mem_map.mp hi
    intro hcontra
    have := congrArg String.data hcontra
    simp at this
  have hfresh : ∀ i ∈ (List.range (B + 1)).map
      (fun k => String.mk (List.replicate (k + 1) 'a')),
      i ∉ (agentInit "a1" 0).processed_message_ids := by
    intro i _
    simp [agentInit]
  have hgrow := processed_growth 0 (agentInit "a1" 0) _ hnodup hfresh hne
  have hfm : ∀ ids : List String,
      ((ids.map mkBcastDelivery).filterMap deliveryMsgId) = ids := by
    intro ids
    rw [List.filterMap_map]
    have hcomp : (deliveryMsgId ∘ mkBcastDelivery) = (some : String → Option String) :=
      rfl
    rw [hcomp]
    exact List.filterMap_some ids
  have hmain := hB (((List.range (B + 1)).map
      (fun k => String.mk (List.replicate (k + 1) 'a'))).map mkBcastDelivery)
    (by rw [hfm]; exact hnodup)
  rw [hgrow] at hmain
  simp [agentInit] at hmain

/-- C7 amended: `processed_message_ids` grows without bound — delivering
broadcasts with fresh, distinct, non-empty msg_ids appends each id and no
operation of the agent ever removes one. -/
theorem processed_message_ids_growth (rand : ℚ) (s : AgentState)
    (ids : List String) (hn : ids.Nodup)
    (hfresh : ∀ i ∈ ids, i ∉ s.processed_message_ids)
    (hne : ∀ i ∈ ids, i ≠ "") :
    (runDeliveries rand s (ids.map mkBcastDelivery)).processed_message_ids
      = s.processed_message_ids ++ ids :=
  processed_growth rand s ids hn hfresh hne

/-- Witness for the amended C7: two fresh broadcasts leave both ids in the
set. -/
theorem processed_message_ids_growth_witness :
    (runDeliveries 0 (agentInit "a1" 0)
        (["x", "y"].map mkBcastDelivery)).processed_message_ids
      = (agentInit "a1" 0).processed_message_ids ++ ["x", "y"] :=
  processed_message_ids_growth 0 (agentInit "a1" 0) ["x", "y"] (by decide)
    (by decide) (by decide)

end MultiAgent
